import Mathlib

/-!
Shallow embedding of `src/PathogenLayoutExtensions.cpp` (Pathogen Studios
extensions to libclang: record/vtable layout extraction).

Modelling conventions:
* The external type system (clang) is abstracted into plain input
  structures: every query the C++ code makes of clang (`getASTRecordLayout`,
  `bases()`, `vbases()`, `getVFPtrOffsets`, `getVTableLayout`, ...) becomes a
  field of `RecordInput` holding that query's answer.
* `CXString` becomes `String`, `CXType` becomes the inductive `CXTypeRef`
  (distinguishing the synthetic `void*` / `void**` types from types made
  from a `QualType`), and `CXCursor` back-references become `Option Nat`
  declaration ids (`none` models the value-initialized null cursor `{}`).
* The singly linked `NextField` / `NextVTable` chains become Lean lists.
* C++ mutation of a field node immediately after its insertion
  (`field->IsPrimaryBase = isPrimary;` etc.) is rendered by constructing the
  final node value before the splice: the splice position depends only on
  `Offset`, which is assigned at creation and never mutated, so the
  resulting list is the same.
* `int64_t` offsets become `Int` (the quantities involved are byte offsets
  of record layouts; no wraparound behaviour of the C++ code is exercised),
  `unsigned` bit counts become `Nat`, `interop_bool` becomes `Bool`.
* `context.toCharUnitsFromBits` / `context.toBits` divide/multiply by the
  target character width, which is 8 bits for every clang target the
  library is built for; the embedding fixes it to 8.
-/

/-- `enum class PathogenRecordFieldKind : int32_t` (source lines 30-38). -/
inductive PathogenRecordFieldKind : Type
  | normal
  | vTablePtr
  | nonVirtualBase
  | virtualBaseTablePtr
  | vTorDisp
  | virtualBase
deriving DecidableEq, Repr

/-- `CXType` values that appear in the extraction: the synthetic `void*`
and `void**` pointers and types produced by `cxtype::MakeCXType` from a
`QualType` (identified by a numeric id). -/
inductive CXTypeRef : Type
  | voidPtr
  | voidPtrPtr
  | ofQualType (id : Nat)
deriving DecidableEq, Repr

/-- `struct PathogenRecordField` (source lines 40-63); the `NextField`
link is replaced by list structure. -/
structure PathogenRecordField where
  kind : PathogenRecordFieldKind
  offset : Int
  name : String
  type : CXTypeRef
  fieldDeclaration : Option Nat
  isBitField : Bool
  bitFieldStart : Nat
  bitFieldWidth : Nat
  isPrimaryBase : Bool
deriving DecidableEq, Repr

/-- `new PathogenRecordField()` (value-initialization: every member zero)
followed by the four assignments `Kind`, `Offset`, `Name`, `Type` performed
inside `PathogenRecordLayout::AddField` (source lines 185-190). -/
def mkNewField (kind : PathogenRecordFieldKind) (offset : Int) (name : String)
    (type : CXTypeRef) : PathogenRecordField :=
  { kind := kind
    offset := offset
    name := name
    type := type
    fieldDeclaration := none
    isBitField := false
    bitFieldStart := 0
    bitFieldWidth := 0
    isPrimaryBase := false }

/-- The ordered splice of `PathogenRecordLayout::AddField` (source lines
176-196): walk the chain while the existing node's `Offset` is `≤` the new
offset, then insert the new node at that point. -/
def addField : List PathogenRecordField → PathogenRecordField → List PathogenRecordField
  | [], f => [f]
  | g :: gs, f => if g.offset ≤ f.offset then g :: addField gs f else f :: g :: gs

/-- `enum class PathogenVTableEntryKind : int32_t` (source lines 65-75). -/
inductive PathogenVTableEntryKind : Type
  | vCallOffset
  | vBaseOffset
  | offsetToTop
  | rtti
  | functionPointer
  | completeDestructorPointer
  | deletingDestructorPointer
  | unusedFunctionPointer
deriving DecidableEq, Repr

/-- The numeric value of a `PathogenVTableEntryKind` (C++ assigns the
default consecutive values 0..7 in declaration order). -/
def PathogenVTableEntryKind.toInt : PathogenVTableEntryKind → Int
  | .vCallOffset => 0
  | .vBaseOffset => 1
  | .offsetToTop => 2
  | .rtti => 3
  | .functionPointer => 4
  | .completeDestructorPointer => 5
  | .deletingDestructorPointer => 6
  | .unusedFunctionPointer => 7

/-- `clang::VTableComponent::Kind` from `clang/AST/VTableBuilder.h` (the
external vtable builder's component-kind enumeration, declared in this
order: `CK_VCallOffset`, `CK_VBaseOffset`, `CK_OffsetToTop`, `CK_RTTI`,
`CK_FunctionPointer`, `CK_CompleteDtorPointer`, `CK_DeletingDtorPointer`,
`CK_UnusedFunctionPointer`). -/
inductive VTableComponentKind : Type
  | ckVCallOffset
  | ckVBaseOffset
  | ckOffsetToTop
  | ckRTTI
  | ckFunctionPointer
  | ckCompleteDtorPointer
  | ckDeletingDtorPointer
  | ckUnusedFunctionPointer
deriving DecidableEq, Repr

/-- The numeric value of a `clang::VTableComponent::Kind` (consecutive
values 0..7 in declaration order). -/
def VTableComponentKind.toInt : VTableComponentKind → Int
  | .ckVCallOffset => 0
  | .ckVBaseOffset => 1
  | .ckOffsetToTop => 2
  | .ckRTTI => 3
  | .ckFunctionPointer => 4
  | .ckCompleteDtorPointer => 5
  | .ckDeletingDtorPointer => 6
  | .ckUnusedFunctionPointer => 7

/-- The C++ cast `(PathogenVTableEntryKind)component.getKind()` (source
line 107): reinterpret the clang component kind as a Pathogen entry kind by
numeric value. -/
def PathogenVTableEntryKind.ofCK : VTableComponentKind → PathogenVTableEntryKind
  | .ckVCallOffset => .vCallOffset
  | .ckVBaseOffset => .vBaseOffset
  | .ckOffsetToTop => .offsetToTop
  | .ckRTTI => .rtti
  | .ckFunctionPointer => .functionPointer
  | .ckCompleteDtorPointer => .completeDestructorPointer
  | .ckDeletingDtorPointer => .deletingDestructorPointer
  | .ckUnusedFunctionPointer => .unusedFunctionPointer

/-- One `clang::VTableComponent` as observed by the extraction: its kind,
the `CharUnits` quantity returned by `getVCallOffset` / `getVBaseOffset` /
`getOffsetToTop`, and the declaration ids returned by `getFunctionDecl` /
`getRTTIDecl`. -/
structure VTableComponent where
  kind : VTableComponentKind
  offsetQuantity : Int
  functionDeclId : Nat
  rttiDeclId : Nat
deriving DecidableEq, Repr

/-- `struct PathogenVTableEntry` (source lines 92-134); the two `CXCursor`
members become optional declaration ids (`none` = the value-initialized
null cursor). -/
structure PathogenVTableEntry where
  kind : PathogenVTableEntryKind
  methodDeclaration : Option Nat
  rttiType : Option Nat
  offset : Int
deriving DecidableEq, Repr

/-- The `PathogenVTableEntry` constructor (source lines 105-133): set
`Kind` by numeric cast, zero the payload members, then fill exactly the
payload relevant to the kind. -/
def PathogenVTableEntry.ofComponent (component : VTableComponent) : PathogenVTableEntry :=
  let base : PathogenVTableEntry :=
    { kind := PathogenVTableEntryKind.ofCK component.kind
      methodDeclaration := none
      rttiType := none
      offset := 0 }
  match base.kind with
  | .vCallOffset => { base with offset := component.offsetQuantity }
  | .vBaseOffset => { base with offset := component.offsetQuantity }
  | .offsetToTop => { base with offset := component.offsetQuantity }
  | .rtti => { base with rttiType := some component.rttiDeclId }
  | .functionPointer => { base with methodDeclaration := some component.functionDeclId }
  | .completeDestructorPointer => { base with methodDeclaration := some component.functionDeclId }
  | .deletingDestructorPointer => { base with methodDeclaration := some component.functionDeclId }
  | .unusedFunctionPointer => { base with methodDeclaration := some component.functionDeclId }

/-- `struct PathogenVTable` (source lines 136-161): the entry array
becomes a list (`EntryCount` is its length); the `NextVTable` chain is
replaced by list structure in the owning layout. -/
structure PathogenVTable where
  entries : List PathogenVTableEntry
deriving DecidableEq, Repr

/-- The `PathogenVTable` constructor (source lines 143-155): translate
every component of the clang `VTableLayout` in order. -/
def PathogenVTable.ofLayout (components : List VTableComponent) : PathogenVTable :=
  { entries := components.map PathogenVTableEntry.ofComponent }

/-- The append-at-end walk of `PathogenRecordLayout::AddVTableLayout`
(source lines 206-221): follow `NextVTable` links to the end of the chain
and insert the new table there. -/
def addVTableLayout : List PathogenVTable → PathogenVTable → List PathogenVTable
  | [], v => [v]
  | w :: ws, v => w :: addVTableLayout ws v

/-- `struct PathogenRecordLayout` (source lines 163-242); the two owned
chains become lists. -/
structure PathogenRecordLayout where
  fields : List PathogenRecordField
  vtables : List PathogenVTable
  size : Int
  alignment : Int
  isCppRecord : Bool
  nonVirtualSize : Int
  nonVirtualAlignment : Int
deriving DecidableEq, Repr

/-- `new PathogenRecordLayout()` (source line 290): value-initialization,
every member zero / null / false. -/
def newPathogenRecordLayout : PathogenRecordLayout :=
  { fields := []
    vtables := []
    size := 0
    alignment := 0
    isCppRecord := false
    nonVirtualSize := 0
    nonVirtualAlignment := 0 }

/-- One entry of `cxxRecord->bases()`: a direct base-class specifier,
together with the answers of the queries the extraction makes about it
(`MakeCXType(base.getType())`, `getType()->getAsCXXRecordDecl()`,
`layout.getBaseClassOffset(baseRecord)`). -/
structure BaseSpecifier where
  isVirtual : Bool
  typeId : Nat
  baseDeclId : Nat
  classOffset : Int
deriving DecidableEq, Repr

/-- One entry of `cxxRecord->vbases()`: a virtual base, together with the
answers of `layout.getVBaseClassOffset(vbase)` and
`vtorDisps.find(vbase)->second.hasVtorDisp()`. -/
structure VBaseSpecifier where
  typeId : Nat
  baseDeclId : Nat
  vbaseOffset : Int
  hasVtorDisp : Bool
deriving DecidableEq, Repr

/-- One declared field from `record->field_begin()..field_end()`, together
with the answer of `layout.getFieldOffset(fieldIndex)` (in bits) for its
index and of `field.getBitWidthValue(context)`. -/
structure FieldDeclInput where
  name : String
  typeId : Nat
  declId : Nat
  offsetBits : Nat
  isBitField : Bool
  bitWidthValue : Nat
deriving DecidableEq, Repr

/-- One element of `MicrosoftVTableContext::getVFPtrOffsets(cxxRecord)`
(a `VPtrInfo`), paired with the component sequence of
`getVFTableLayout(cxxRecord, offset->FullOffsetInMDC)` for it. -/
structure MsVFTableInput where
  fullOffsetInMDC : Int
  components : List VTableComponent
deriving DecidableEq, Repr

/-- Every answer the external type system (clang) gives about one record
declaration during `pathogen_GetRecordLayout`. `isCxxRecord` is whether
`dyn_cast<CXXRecordDecl>(record)` succeeds; `isMicrosoftABI` is the target
ABI family reported both by `IsMsLayout(context)` and by
`context.getVTableContext()->isMicrosoft()` (the same target property). -/
structure RecordInput where
  hasDefinition : Bool
  size : Int
  alignment : Int
  isCxxRecord : Bool
  nonVirtualSize : Int
  nonVirtualAlignment : Int
  isDynamicClass : Bool
  primaryBaseId : Option Nat
  hasOwnVFPtr : Bool
  hasOwnVBPtr : Bool
  vbPtrOffset : Int
  bases : List BaseSpecifier
  fields : List FieldDeclInput
  vbases : List VBaseSpecifier
  isMicrosoftABI : Bool
  msVFTables : List MsVFTableInput
  itaniumComponents : List VTableComponent
deriving DecidableEq, Repr

/-- The result of `cxcursor::getCursorDecl(cursor)` followed by
`dyn_cast_or_null<RecordDecl>`: either a record declaration (with all the
data queried from it) or some other declaration. -/
inductive CursorDecl : Type
  | nonRecord
  | record (r : RecordInput)
deriving DecidableEq, Repr

/-- The input handle of `pathogen_GetRecordLayout`: the cursor's kind
class (`clang_isDeclaration(cursor.kind)`) and the declaration it resolves
to (`none` models a null `Decl*`). -/
structure CXCursorInput where
  isDeclaration : Bool
  decl : Option CursorDecl
deriving DecidableEq, Repr

/-- Section "Add vtable pointer" (source lines 308-318): the Itanium-style
vtable pointer when the class is dynamic with no primary base on a
non-Microsoft target, else the Microsoft vftable pointer when the layout
reports the record owns a vfptr; both at offset 0, kind `VTablePtr`. -/
def vfptrInserts (r : RecordInput) : List PathogenRecordField :=
  if r.isDynamicClass = true ∧ r.primaryBaseId = none ∧ r.isMicrosoftABI = false then
    [mkNewField .vTablePtr 0 "vtable_pointer" .voidPtrPtr]
  else if r.hasOwnVFPtr = true then
    [mkNewField .vTablePtr 0 "vftable_pointer" .voidPtrPtr]
  else []

/-- Section "Add non-virtual bases" (source lines 320-337): every
non-virtual direct base produces one `NonVirtualBase` slot at its base
class offset, flagged and named primary when it is the primary base. -/
def nonVirtualBaseInserts (r : RecordInput) : List PathogenRecordField :=
  (r.bases.filter fun b => b.isVirtual = false).map fun b =>
    let isPrimary : Bool := some b.baseDeclId == r.primaryBaseId
    { mkNewField .nonVirtualBase b.classOffset
        (if isPrimary then "primary_base" else "base") (.ofQualType b.typeId) with
      isPrimaryBase := isPrimary }

/-- Section "Vbptr - Microsoft C++ ABI" (source lines 339-343): one
`VirtualBaseTablePtr` slot at `layout.getVBPtrOffset()` when the record
owns its vbptr. -/
def vbptrInserts (r : RecordInput) : List PathogenRecordField :=
  if r.hasOwnVBPtr = true then
    [mkNewField .virtualBaseTablePtr r.vbPtrOffset "vbtable_pointer" .voidPtr]
  else []

/-- Section "Add normal fields" (source lines 346-366): each declared
field produces one `Normal` slot at `offsetBits / charWidth` bytes; a
bitfield additionally gets `IsBitField`, `BitFieldStart = offsetBits -
toBits(offsetChars)` and `BitFieldWidth` set on the slot just inserted. -/
def normalFieldInserts (r : RecordInput) : List PathogenRecordField :=
  r.fields.map fun fd =>
    let offsetChars : Nat := fd.offsetBits / 8
    let slot := { mkNewField .normal (Int.ofNat offsetChars) fd.name (.ofQualType fd.typeId) with
                  fieldDeclaration := some fd.declId }
    if fd.isBitField = true then
      { slot with
        isBitField := true
        bitFieldStart := fd.offsetBits - 8 * offsetChars
        bitFieldWidth := fd.bitWidthValue }
    else slot

/-- Section "Add virtual bases" (source lines 368-392): each virtual base
produces a `VTorDisp` slot at `offset - 4` when the displacement map says
it has a vtordisp, then a `VirtualBase` slot at its offset, flagged and
named primary when it is the primary base. -/
def vbaseInsertsFor (r : RecordInput) (v : VBaseSpecifier) : List PathogenRecordField :=
  (if v.hasVtorDisp = true then
    [mkNewField .vTorDisp (v.vbaseOffset - 4) "vtordisp" (.ofQualType v.typeId)]
  else []) ++
  [let isPrimary : Bool := some v.baseDeclId == r.primaryBaseId
   { mkNewField .virtualBase v.vbaseOffset
       (if isPrimary then "primary_virtual_base" else "virtual_base")
       (.ofQualType v.typeId) with
     isPrimaryBase := isPrimary }]

/-- The body of the virtual-base loop, concatenated over
`cxxRecord->vbases()` in iteration order. -/
def vbaseInserts (r : RecordInput) : List PathogenRecordField :=
  r.vbases.flatMap (vbaseInsertsFor r)

/-- The complete sequence of `AddField` calls made while building one
layout, in program order (discovery order, not offset order): vtable
pointer and base sections run only for C++ records, the declared-field
section always runs. -/
def recordFieldInserts (r : RecordInput) : List PathogenRecordField :=
  (if r.isCxxRecord = true then vfptrInserts r ++ nonVirtualBaseInserts r ++ vbptrInserts r
   else []) ++
  normalFieldInserts r ++
  (if r.isCxxRecord = true then vbaseInserts r else [])

/-- Section "Add VTable layouts" (source lines 394-414): for a C++ record,
on a Microsoft target one vtable per `getVFPtrOffsets` entry (each built
from `getVFTableLayout` at that offset, appended to the chain in turn),
otherwise exactly one vtable built from `getVTableLayout`. -/
def recordVTables (r : RecordInput) : List PathogenVTable :=
  if r.isCxxRecord = true then
    if r.isMicrosoftABI = true then
      (r.msVFTables.map fun t => PathogenVTable.ofLayout t.components).foldl addVTableLayout []
    else
      addVTableLayout [] (PathogenVTable.ofLayout r.itaniumComponents)
  else []

/-- The successful path of `pathogen_GetRecordLayout` (source lines
273-416): value-initialize the layout, copy size/alignment, copy the
C++-only metrics when the record is a `CXXRecordDecl`, then perform all
`AddField` and `AddVTableLayout` calls in program order. -/
def buildRecordLayout (r : RecordInput) : PathogenRecordLayout :=
  let ret := newPathogenRecordLayout
  let ret := { ret with size := r.size, alignment := r.alignment }
  let ret :=
    if r.isCxxRecord = true then
      { ret with
        isCppRecord := true
        nonVirtualSize := r.nonVirtualSize
        nonVirtualAlignment := r.nonVirtualAlignment }
    else ret
  { ret with
    fields := (recordFieldInserts r).foldl addField []
    vtables := recordVTables r }

/-- `pathogen_GetRecordLayout` (source lines 249-417): `nullptr` (here
`none`) when the cursor is not a declaration, when it does not resolve to
a `RecordDecl`, or when the record has no definition; otherwise the built
layout. -/
def pathogen_GetRecordLayout (cursor : CXCursorInput) : Option PathogenRecordLayout :=
  if cursor.isDeclaration = false then none
  else
    match cursor.decl with
    | some (.record r) =>
      if r.hasDefinition = false then none
      else some (buildRecordLayout r)
    | _ => none

/-- The size-introspection buffer `struct PathogenTypeSizes` (source lines
424-431). -/
structure PathogenTypeSizes where
  pathogenTypeSizes : Int
  pathogenRecordLayout : Int
  pathogenRecordField : Int
  pathogenVTable : Int
  pathogenVTableEntry : Int
deriving DecidableEq, Repr

/-- The target-dependent `sizeof` values of the five public structs,
supplied by the C++ compiler that built the library. -/
structure TargetSizes where
  sizeofPathogenTypeSizes : Int
  sizeofPathogenRecordLayout : Int
  sizeofPathogenRecordField : Int
  sizeofPathogenVTable : Int
  sizeofPathogenVTableEntry : Int
deriving DecidableEq, Repr

/-- `pathogen_GetTypeSizes` (source lines 435-448): refuse (returning
`false`, writing nothing) when the caller's declared self-size differs
from `sizeof(PathogenTypeSizes)`; otherwise write the four sizes and
return `true`. The returned pair is (return value, buffer after the
call). -/
def pathogen_GetTypeSizes (target : TargetSizes) (sizes : PathogenTypeSizes) :
    Bool × PathogenTypeSizes :=
  if sizes.pathogenTypeSizes ≠ target.sizeofPathogenTypeSizes then
    (false, sizes)
  else
    let sizes := { sizes with pathogenRecordLayout := target.sizeofPathogenRecordLayout }
    let sizes := { sizes with pathogenRecordField := target.sizeofPathogenRecordField }
    let sizes := { sizes with pathogenVTable := target.sizeofPathogenVTable }
    let sizes := { sizes with pathogenVTableEntry := target.sizeofPathogenVTableEntry }
    (true, sizes)

/-! ## Concrete example inputs -/

/-- A plain C record (not a `CXXRecordDecl`): two `int` fields at bit
offsets 0 and 32 on a 4-byte-aligned target. -/
def examplePlainRecord : RecordInput :=
  { hasDefinition := true
    size := 8
    alignment := 4
    isCxxRecord := false
    nonVirtualSize := 0
    nonVirtualAlignment := 0
    isDynamicClass := false
    primaryBaseId := none
    hasOwnVFPtr := false
    hasOwnVBPtr := false
    vbPtrOffset := 0
    bases := []
    fields := [⟨"a", 1, 10, 0, false, 0⟩, ⟨"b", 1, 11, 32, false, 0⟩]
    vbases := []
    isMicrosoftABI := false
    msVFTables := []
    itaniumComponents := [] }

def examplePlainCursor : CXCursorInput :=
  { isDeclaration := true, decl := some (.record examplePlainRecord) }

/-- A dynamic C++ class with no primary base on an Itanium-ABI target:
one virtual method, one `int` field at byte offset 8. -/
def exampleItaniumRecord : RecordInput :=
  { hasDefinition := true
    size := 16
    alignment := 8
    isCxxRecord := true
    nonVirtualSize := 16
    nonVirtualAlignment := 8
    isDynamicClass := true
    primaryBaseId := none
    hasOwnVFPtr := true
    hasOwnVBPtr := false
    vbPtrOffset := 0
    bases := []
    fields := [⟨"x", 2, 20, 64, false, 0⟩]
    vbases := []
    isMicrosoftABI := false
    msVFTables := []
    itaniumComponents :=
      [⟨.ckOffsetToTop, 0, 0, 0⟩, ⟨.ckRTTI, 0, 0, 7⟩, ⟨.ckFunctionPointer, 0, 30, 0⟩] }

def exampleItaniumCursor : CXCursorInput :=
  { isDeclaration := true, decl := some (.record exampleItaniumRecord) }

/-- A dynamic C++ class on a Microsoft-ABI target for which the vtable
context reports two vfptr sub-objects (at offsets 0 and 8). -/
def exampleMsRecord : RecordInput :=
  { hasDefinition := true
    size := 24
    alignment := 8
    isCxxRecord := true
    nonVirtualSize := 24
    nonVirtualAlignment := 8
    isDynamicClass := true
    primaryBaseId := none
    hasOwnVFPtr := true
    hasOwnVBPtr := false
    vbPtrOffset := 0
    bases := []
    fields := []
    vbases := []
    isMicrosoftABI := true
    msVFTables :=
      [⟨0, [⟨.ckFunctionPointer, 0, 40, 0⟩]⟩,
       ⟨8, [⟨.ckFunctionPointer, 0, 41, 0⟩, ⟨.ckDeletingDtorPointer, 0, 42, 0⟩]⟩]
    itaniumComponents := [] }

def exampleMsCursor : CXCursorInput :=
  { isDeclaration := true, decl := some (.record exampleMsRecord) }

/-- A Microsoft-ABI C++ class with two virtual bases: one (the primary
base, decl id 50) with a vtordisp at offset 16, one (decl id 60) without,
at offset 24. -/
def exampleVBaseRecord : RecordInput :=
  { hasDefinition := true
    size := 32
    alignment := 8
    isCxxRecord := true
    nonVirtualSize := 8
    nonVirtualAlignment := 8
    isDynamicClass := true
    primaryBaseId := some 50
    hasOwnVFPtr := true
    hasOwnVBPtr := true
    vbPtrOffset := 8
    bases := []
    fields := []
    vbases := [⟨5, 50, 16, true⟩, ⟨6, 60, 24, false⟩]
    isMicrosoftABI := true
    msVFTables := [⟨0, [⟨.ckFunctionPointer, 0, 40, 0⟩]⟩]
    itaniumComponents := [] }

def exampleVBaseCursor : CXCursorInput :=
  { isDeclaration := true, decl := some (.record exampleVBaseRecord) }

/-- A plain C record with one declared bitfield `int flags : 20` at bit
offset 0 (a perfectly legal layout clang produces for `struct { int
flags : 20; }`). -/
def exampleBitfieldRecord : RecordInput :=
  { hasDefinition := true
    size := 4
    alignment := 4
    isCxxRecord := false
    nonVirtualSize := 0
    nonVirtualAlignment := 0
    isDynamicClass := false
    primaryBaseId := none
    hasOwnVFPtr := false
    hasOwnVBPtr := false
    vbPtrOffset := 0
    bases := []
    fields := [⟨"flags", 1, 12, 0, true, 20⟩]
    vbases := []
    isMicrosoftABI := false
    msVFTables := []
    itaniumComponents := [] }

def exampleBitfieldCursor : CXCursorInput :=
  { isDeclaration := true, decl := some (.record exampleBitfieldRecord) }

/-- A C++ record with no virtual functions and no virtual bases (not a
dynamic class) on an Itanium-ABI target: one `int` field, no bases. -/
def exampleNonDynCxxRecord : RecordInput :=
  { hasDefinition := true
    size := 4
    alignment := 4
    isCxxRecord := true
    nonVirtualSize := 4
    nonVirtualAlignment := 4
    isDynamicClass := false
    primaryBaseId := none
    hasOwnVFPtr := false
    hasOwnVBPtr := false
    vbPtrOffset := 0
    bases := []
    fields := [⟨"x", 1, 15, 0, false, 0⟩]
    vbases := []
    isMicrosoftABI := false
    msVFTables := []
    itaniumComponents := [] }

def exampleNonDynCxxCursor : CXCursorInput :=
  { isDeclaration := true, decl := some (.record exampleNonDynCxxRecord) }

/-- The value-initialization discipline every inserted slot obeys: the
bitfield members stay zero unless the slot is a marked bitfield (which
only happens for `Normal` slots), and `isPrimaryBase` is set only on base
slots. -/
def fieldDefaultsOK (f : PathogenRecordField) : Prop :=
  (f.isBitField = false → f.bitFieldStart = 0 ∧ f.bitFieldWidth = 0) ∧
  (f.isBitField = true → f.kind = PathogenRecordFieldKind.normal) ∧
  (f.isPrimaryBase = true →
    f.kind = PathogenRecordFieldKind.nonVirtualBase ∨
    f.kind = PathogenRecordFieldKind.virtualBase)

/-! ## General lemmas about the insertion operations -/

theorem addField_perm (l : List PathogenRecordField) (f : PathogenRecordField) :
    (addField l f).Perm (f :: l) := by
  induction l with
  | nil => simp [addField]
  | cons g gs ih =>
    simp only [addField]
    by_cases h : g.offset ≤ f.offset
    · rw [if_pos h]
      exact (ih.cons g).trans (List.Perm.swap f g gs)
    · rw [if_neg h]

theorem foldl_addField_perm (new init : List PathogenRecordField) :
    (new.foldl addField init).Perm (init ++ new) := by
  induction new generalizing init with
  | nil => simp
  | cons f fs ih =>
    exact (ih (addField init f)).trans
      (((addField_perm init f).append_right fs).trans List.perm_middle.symm)

theorem addField_pairwise {l : List PathogenRecordField} {f : PathogenRecordField}
    (h : l.Pairwise (fun a b => a.offset ≤ b.offset)) :
    (addField l f).Pairwise (fun a b => a.offset ≤ b.offset) := by
  induction l with
  | nil => simp [addField]
  | cons g gs ih =>
    rw [List.pairwise_cons] at h
    obtain ⟨hg, hgs⟩ := h
    simp only [addField]
    by_cases hle : g.offset ≤ f.offset
    · rw [if_pos hle, List.pairwise_cons]
      refine ⟨fun x hx => ?_, ih hgs⟩
      rcases List.mem_cons.mp ((addField_perm gs f).mem_iff.mp hx) with hxf | hxg
      · rw [hxf]; exact hle
      · exact hg x hxg
    · rw [if_neg hle]
      have hf : f.offset ≤ g.offset := le_of_not_le hle
      rw [List.pairwise_cons]
      refine ⟨fun x hx => ?_, List.pairwise_cons.mpr ⟨hg, hgs⟩⟩
      rcases List.mem_cons.mp hx with hxg | hxgs
      · rw [hxg]; exact hf
      · exact hf.trans (hg x hxgs)

theorem foldl_addField_pairwise (new : List PathogenRecordField) :
    ∀ init : List PathogenRecordField,
      init.Pairwise (fun a b => a.offset ≤ b.offset) →
      (new.foldl addField init).Pairwise (fun a b => a.offset ≤ b.offset) := by
  induction new with
  | nil => intro init h; exact h
  | cons f fs ih => intro init h; exact ih (addField init f) (addField_pairwise h)

theorem addVTableLayout_eq_append (l : List PathogenVTable) (v : PathogenVTable) :
    addVTableLayout l v = l ++ [v] := by
  induction l with
  | nil => rfl
  | cons w ws ih => simp [addVTableLayout, ih]

theorem foldl_addVTableLayout (new : List PathogenVTable) :
    ∀ init : List PathogenVTable, new.foldl addVTableLayout init = init ++ new := by
  induction new with
  | nil => intro init; simp
  | cons v vs ih => intro init; simp [List.foldl_cons, addVTableLayout_eq_append, ih]

theorem buildRecordLayout_fields (r : RecordInput) :
    (buildRecordLayout r).fields = (recordFieldInserts r).foldl addField [] := rfl

theorem buildRecordLayout_vtables (r : RecordInput) :
    (buildRecordLayout r).vtables = recordVTables r := rfl

theorem buildRecordLayout_fields_perm (r : RecordInput) :
    (buildRecordLayout r).fields.Perm (recordFieldInserts r) := by
  rw [buildRecordLayout_fields]
  simpa using foldl_addField_perm (recordFieldInserts r) []

theorem pathogen_GetRecordLayout_eq_some {cursor : CXCursorInput} {r : RecordInput}
    (hdecl : cursor.isDeclaration = true)
    (hrec : cursor.decl = some (.record r)) (hdef : r.hasDefinition = true) :
    pathogen_GetRecordLayout cursor = some (buildRecordLayout r) := by
  simp [pathogen_GetRecordLayout, hdecl, hrec, hdef]

theorem pathogen_GetRecordLayout_some_inv {cursor : CXCursorInput}
    {layout : PathogenRecordLayout}
    (h : pathogen_GetRecordLayout cursor = some layout) :
    ∃ r : RecordInput, cursor.decl = some (.record r) ∧ r.hasDefinition = true ∧
      layout = buildRecordLayout r := by
  by_cases hd : cursor.isDeclaration = false
  · rw [pathogen_GetRecordLayout, if_pos hd] at h
    simp at h
  · rw [pathogen_GetRecordLayout, if_neg hd] at h
    match hdecl : cursor.decl with
    | none => rw [hdecl] at h; simp at h
    | some .nonRecord => rw [hdecl] at h; simp at h
    | some (.record r) =>
      rw [hdecl] at h
      cases hdef : r.hasDefinition with
      | false => simp [hdef] at h
      | true =>
        simp [hdef] at h
        exact ⟨r, rfl, hdef, h.symm⟩

/-! ## Claim theorems -/

/-- C1: For every RecordLayout produced by the extraction operation the
field sequence is ordered by non-decreasing `offset`, and the ordered
splice of `AddField` preserves non-decreasing `offset` order for every
insertion into an already ordered chain. -/
theorem extraction_field_order_c1 :
    (∀ (cursor : CXCursorInput) (layout : PathogenRecordLayout),
      pathogen_GetRecordLayout cursor = some layout →
      layout.fields.Pairwise (fun a b => a.offset ≤ b.offset)) ∧
    (∀ (l : List PathogenRecordField) (f : PathogenRecordField),
      l.Pairwise (fun a b => a.offset ≤ b.offset) →
      (addField l f).Pairwise (fun a b => a.offset ≤ b.offset)) := by
  constructor
  · intro cursor layout h
    obtain ⟨r, -, -, rfl⟩ := pathogen_GetRecordLayout_some_inv h
    rw [buildRecordLayout_fields]
    exact foldl_addField_pairwise _ [] List.Pairwise.nil
  · exact fun l f h => addField_pairwise h

/-- Witness for C1: the extraction succeeds on a concrete two-field record
and the resulting field sequence is offset-ordered. -/
theorem extraction_field_order_c1_witness :
    (buildRecordLayout examplePlainRecord).fields.Pairwise
      (fun a b => a.offset ≤ b.offset) :=
  extraction_field_order_c1.1 examplePlainCursor _ rfl

/-- C2: The extraction returns a null result if and only if the handle is
not a declaration, or does not resolve to a record declaration, or names a
record without a definition; in every other case it returns a layout. -/
theorem extraction_failure_iff_c2 (cursor : CXCursorInput) :
    pathogen_GetRecordLayout cursor = none ↔
      (cursor.isDeclaration = false ∨
       (∀ r : RecordInput, cursor.decl ≠ some (.record r)) ∨
       (∃ r : RecordInput, cursor.decl = some (.record r) ∧ r.hasDefinition = false)) := by
  rcases cursor with ⟨d, decl⟩
  cases d
  · simp [pathogen_GetRecordLayout]
  · rcases decl with - | (- | r)
    · simp [pathogen_GetRecordLayout]
    · simp [pathogen_GetRecordLayout]
    · cases hdef : r.hasDefinition with
      | false =>
        have hnone : pathogen_GetRecordLayout ⟨true, some (.record r)⟩ = none := by
          simp [pathogen_GetRecordLayout, hdef]
        rw [hnone]
        exact iff_of_true rfl (Or.inr (Or.inr ⟨r, rfl, hdef⟩))
      | true =>
        have hsome : pathogen_GetRecordLayout ⟨true, some (.record r)⟩ =
            some (buildRecordLayout r) := by
          simp [pathogen_GetRecordLayout, hdef]
        rw [hsome]
        apply iff_of_false
        · simp
        · rintro (h1 | h2 | ⟨r', hr', hdef'⟩)
          · simp at h1
          · exact h2 r rfl
          · injection hr' with h
            injection h with h2
            subst h2
            simp [hdef] at hdef'

/-- C7: The `PathogenVTableEntryKind` enumeration equals, value for value
(ordinals 0 through 7), the external vtable builder's component-kind
enumeration `clang::VTableComponent::Kind`, and translating a component
into a `PathogenVTableEntry` preserves the kind under this mapping. -/
theorem vtable_entry_kind_contract_c7 :
    (∀ k : VTableComponentKind,
      (PathogenVTableEntryKind.ofCK k).toInt = k.toInt) ∧
    (PathogenVTableEntryKind.vCallOffset.toInt = 0 ∧
     PathogenVTableEntryKind.vBaseOffset.toInt = 1 ∧
     PathogenVTableEntryKind.offsetToTop.toInt = 2 ∧
     PathogenVTableEntryKind.rtti.toInt = 3 ∧
     PathogenVTableEntryKind.functionPointer.toInt = 4 ∧
     PathogenVTableEntryKind.completeDestructorPointer.toInt = 5 ∧
     PathogenVTableEntryKind.deletingDestructorPointer.toInt = 6 ∧
     PathogenVTableEntryKind.unusedFunctionPointer.toInt = 7) ∧
    (∀ component : VTableComponent,
      (PathogenVTableEntry.ofComponent component).kind =
        PathogenVTableEntryKind.ofCK component.kind) := by
  refine ⟨fun k => ?_, by decide, fun component => ?_⟩
  · cases k <;> rfl
  · rcases component with ⟨ck, off, fid, rid⟩
    cases ck <;> rfl

/-- C8: The size-introspection operation returns false and leaves the
caller's buffer untouched when the declared self-size differs from the
expected structure size, and otherwise returns true with all four type
sizes filled in; it never partially populates the buffer. -/
theorem type_sizes_guard_c8 (target : TargetSizes) (sizes : PathogenTypeSizes) :
    (sizes.pathogenTypeSizes ≠ target.sizeofPathogenTypeSizes →
      pathogen_GetTypeSizes target sizes = (false, sizes)) ∧
    (sizes.pathogenTypeSizes = target.sizeofPathogenTypeSizes →
      pathogen_GetTypeSizes target sizes =
        (true,
         { pathogenTypeSizes := sizes.pathogenTypeSizes
           pathogenRecordLayout := target.sizeofPathogenRecordLayout
           pathogenRecordField := target.sizeofPathogenRecordField
           pathogenVTable := target.sizeofPathogenVTable
           pathogenVTableEntry := target.sizeofPathogenVTableEntry })) := by
  constructor
  · intro h; simp [pathogen_GetTypeSizes, h]
  · intro h; simp [pathogen_GetTypeSizes, h]

/-- Witness for C8: a concrete mismatching buffer is refused unchanged and
a concrete matching buffer is fully populated. -/
theorem type_sizes_guard_c8_witness :
    pathogen_GetTypeSizes ⟨20, 40, 56, 16, 48⟩ ⟨19, 0, 0, 0, 0⟩ = (false, ⟨19, 0, 0, 0, 0⟩) ∧
    pathogen_GetTypeSizes ⟨20, 40, 56, 16, 48⟩ ⟨20, 0, 0, 0, 0⟩ = (true, ⟨20, 40, 56, 16, 48⟩) :=
  ⟨(type_sizes_guard_c8 ⟨20, 40, 56, 16, 48⟩ ⟨19, 0, 0, 0, 0⟩).1 (by decide),
   (type_sizes_guard_c8 ⟨20, 40, 56, 16, 48⟩ ⟨20, 0, 0, 0, 0⟩).2 rfl⟩

/-! ## Which kinds each insertion section produces -/

theorem vfptrInserts_kind (r : RecordInput) :
    ∀ f ∈ vfptrInserts r, f.kind = .vTablePtr := by
  intro f hf
  unfold vfptrInserts at hf
  split at hf
  · simp at hf; rw [hf]; rfl
  · split at hf
    · simp at hf; rw [hf]; rfl
    · simp at hf

theorem nonVirtualBaseInserts_kind (r : RecordInput) :
    ∀ f ∈ nonVirtualBaseInserts r, f.kind = .nonVirtualBase := by
  intro f hf
  simp only [nonVirtualBaseInserts, List.mem_map] at hf
  obtain ⟨b, -, rfl⟩ := hf
  rfl

theorem vbptrInserts_kind (r : RecordInput) :
    ∀ f ∈ vbptrInserts r, f.kind = .virtualBaseTablePtr := by
  intro f hf
  unfold vbptrInserts at hf
  split at hf
  · simp at hf; rw [hf]; rfl
  · simp at hf

theorem normalFieldInserts_kind (r : RecordInput) :
    ∀ f ∈ normalFieldInserts r, f.kind = .normal := by
  intro f hf
  simp only [normalFieldInserts, List.mem_map] at hf
  obtain ⟨fd, -, rfl⟩ := hf
  split <;> rfl

theorem vbaseInsertsFor_kind (r : RecordInput) (v : VBaseSpecifier) :
    ∀ f ∈ vbaseInsertsFor r v, f.kind = .vTorDisp ∨ f.kind = .virtualBase := by
  intro f hf
  unfold vbaseInsertsFor at hf
  rcases List.mem_append.mp hf with h | h
  · left
    split at h
    · simp at h; rw [h]; rfl
    · simp at h
  · right; simp at h; rw [h]; rfl

theorem vbaseInserts_kind (r : RecordInput) :
    ∀ f ∈ vbaseInserts r, f.kind = .vTorDisp ∨ f.kind = .virtualBase := by
  intro f hf
  obtain ⟨v, -, hv⟩ := List.mem_flatMap.mp hf
  exact vbaseInsertsFor_kind r v f hv

theorem filter_kind_nil {l : List PathogenRecordField} {k : PathogenRecordFieldKind}
    (h : ∀ f ∈ l, f.kind ≠ k) :
    l.filter (fun f => decide (f.kind = k)) = [] := by
  rw [List.filter_eq_nil_iff]
  intro a ha
  simp [h a ha]

theorem flatMap_if_singleton {α β : Type} (P : α → Bool) (g : α → β) (l : List α) :
    (l.flatMap fun a => if P a = true then [g a] else []) =
      (l.filter fun a => P a).map g := by
  induction l with
  | nil => rfl
  | cons a as ih => by_cases h : P a = true <;> simp [List.filter_cons, h, ih]

/-! ## C4 and C5 -/

theorem recordFieldInserts_filter_vtablePtr_itanium (r : RecordInput)
    (hcxx : r.isCxxRecord = true) (hdyn : r.isDynamicClass = true)
    (hpb : r.primaryBaseId = none) (hms : r.isMicrosoftABI = false) :
    (recordFieldInserts r).filter (fun f => decide (f.kind = .vTablePtr)) =
      [mkNewField .vTablePtr 0 "vtable_pointer" .voidPtrPtr] := by
  unfold recordFieldInserts
  rw [if_pos hcxx, if_pos hcxx]
  simp only [List.filter_append]
  have h1 : (vfptrInserts r).filter
      (fun f => decide (f.kind = PathogenRecordFieldKind.vTablePtr)) =
      [mkNewField .vTablePtr 0 "vtable_pointer" .voidPtrPtr] := by
    unfold vfptrInserts
    rw [if_pos ⟨hdyn, hpb, hms⟩]
    rfl
  have h2 : (nonVirtualBaseInserts r).filter
      (fun f => decide (f.kind = PathogenRecordFieldKind.vTablePtr)) = [] :=
    filter_kind_nil fun f hf => by simp [nonVirtualBaseInserts_kind r f hf]
  have h3 : (vbptrInserts r).filter
      (fun f => decide (f.kind = PathogenRecordFieldKind.vTablePtr)) = [] :=
    filter_kind_nil fun f hf => by simp [vbptrInserts_kind r f hf]
  have h4 : (normalFieldInserts r).filter
      (fun f => decide (f.kind = PathogenRecordFieldKind.vTablePtr)) = [] :=
    filter_kind_nil fun f hf => by simp [normalFieldInserts_kind r f hf]
  have h5 : (vbaseInserts r).filter
      (fun f => decide (f.kind = PathogenRecordFieldKind.vTablePtr)) = [] :=
    filter_kind_nil fun f hf => by
      rcases vbaseInserts_kind r f hf with h | h <;> simp [h]
  rw [h1, h2, h3, h4, h5]
  rfl

/-- C4: Under the Itanium-style ABI, every polymorphic (dynamic) C++
record with no primary base gets exactly one `VTablePtr` slot, that slot
is at offset 0, and the layout carries exactly one VTable. -/
theorem itanium_vptr_c4 (cursor : CXCursorInput) (r : RecordInput)
    (layout : PathogenRecordLayout)
    (hl : pathogen_GetRecordLayout cursor = some layout)
    (hrec : cursor.decl = some (.record r))
    (hcxx : r.isCxxRecord = true) (hdyn : r.isDynamicClass = true)
    (hpb : r.primaryBaseId = none) (hms : r.isMicrosoftABI = false) :
    layout.fields.filter (fun f => decide (f.kind = .vTablePtr)) =
      [{ kind := .vTablePtr, offset := 0, name := "vtable_pointer", type := .voidPtrPtr,
         fieldDeclaration := none, isBitField := false, bitFieldStart := 0,
         bitFieldWidth := 0, isPrimaryBase := false }] ∧
    layout.vtables.length = 1 := by
  obtain ⟨r', hrec', -, rfl⟩ := pathogen_GetRecordLayout_some_inv hl
  rw [hrec] at hrec'
  injection hrec' with h
  injection h with h
  subst h
  constructor
  · have hperm := (buildRecordLayout_fields_perm r).filter
      (fun f => decide (f.kind = .vTablePtr))
    rw [recordFieldInserts_filter_vtablePtr_itanium r hcxx hdyn hpb hms] at hperm
    exact List.perm_singleton.mp hperm
  · rw [buildRecordLayout_vtables]
    unfold recordVTables
    rw [if_pos hcxx, if_neg (by simp [hms]), addVTableLayout_eq_append]
    rfl

/-- Witness for C4: a concrete dynamic Itanium-ABI class with no primary
base yields exactly the one vtable-pointer slot at offset 0 and one
VTable. -/
theorem itanium_vptr_c4_witness :
    (buildRecordLayout exampleItaniumRecord).fields.filter
        (fun f => decide (f.kind = .vTablePtr)) =
      [{ kind := .vTablePtr, offset := 0, name := "vtable_pointer", type := .voidPtrPtr,
         fieldDeclaration := none, isBitField := false, bitFieldStart := 0,
         bitFieldWidth := 0, isPrimaryBase := false }] ∧
    (buildRecordLayout exampleItaniumRecord).vtables.length = 1 :=
  itanium_vptr_c4 exampleItaniumCursor exampleItaniumRecord _ rfl rfl rfl rfl rfl rfl

/-- C5: Under the Microsoft-style ABI the extracted layout has one VTable
per vfptr sub-object offset reported by `getVFPtrOffsets`, appended to the
chain in enumeration order (so the chain equals the enumerated layouts,
translated, in order). -/
theorem ms_vtables_c5 (cursor : CXCursorInput) (r : RecordInput)
    (layout : PathogenRecordLayout)
    (hl : pathogen_GetRecordLayout cursor = some layout)
    (hrec : cursor.decl = some (.record r))
    (hcxx : r.isCxxRecord = true) (hms : r.isMicrosoftABI = true) :
    layout.vtables =
      r.msVFTables.map
        (fun t => { entries := t.components.map PathogenVTableEntry.ofComponent }) ∧
    layout.vtables.length = r.msVFTables.length := by
  obtain ⟨r', hrec', -, rfl⟩ := pathogen_GetRecordLayout_some_inv hl
  rw [hrec] at hrec'
  injection hrec' with h
  injection h with h
  subst h
  have hvt : (buildRecordLayout r).vtables =
      r.msVFTables.map
        (fun t => { entries := t.components.map PathogenVTableEntry.ofComponent }) := by
    rw [buildRecordLayout_vtables]
    unfold recordVTables
    rw [if_pos hcxx, if_pos hms, foldl_addVTableLayout]
    simp [PathogenVTable.ofLayout]
  refine ⟨hvt, ?_⟩
  rw [hvt, List.length_map]

/-- Witness for C5: a concrete Microsoft-ABI class with two reported
vfptr offsets yields exactly those two VTables, in order. -/
theorem ms_vtables_c5_witness :
    (buildRecordLayout exampleMsRecord).vtables =
      exampleMsRecord.msVFTables.map
        (fun t => { entries := t.components.map PathogenVTableEntry.ofComponent }) ∧
    (buildRecordLayout exampleMsRecord).vtables.length =
      exampleMsRecord.msVFTables.length :=
  ms_vtables_c5 exampleMsCursor exampleMsRecord _ rfl rfl rfl rfl

/-! ## C6: virtual-base slots -/

theorem flatMap_singleton_map {α β : Type} (g : α → β) (l : List α) :
    (l.flatMap fun a => [g a]) = l.map g := by
  induction l with
  | nil => rfl
  | cons a as ih => simp [ih]

theorem vbaseInsertsFor_filter_vtordisp (r : RecordInput) (v : VBaseSpecifier) :
    (vbaseInsertsFor r v).filter
      (fun f => decide (f.kind = PathogenRecordFieldKind.vTorDisp)) =
      if v.hasVtorDisp = true then
        [mkNewField .vTorDisp (v.vbaseOffset - 4) "vtordisp" (.ofQualType v.typeId)]
      else [] := by
  unfold vbaseInsertsFor
  by_cases h : v.hasVtorDisp = true
  · rw [if_pos h]
    rfl
  · rw [if_neg h]
    rfl

theorem vbaseInsertsFor_filter_virtualBase (r : RecordInput) (v : VBaseSpecifier) :
    (vbaseInsertsFor r v).filter
      (fun f => decide (f.kind = PathogenRecordFieldKind.virtualBase)) =
      [{ mkNewField .virtualBase v.vbaseOffset
           (if (some v.baseDeclId == r.primaryBaseId) then "primary_virtual_base"
            else "virtual_base")
           (.ofQualType v.typeId) with
         isPrimaryBase := (some v.baseDeclId == r.primaryBaseId) }] := by
  unfold vbaseInsertsFor
  by_cases h : v.hasVtorDisp = true
  · rw [if_pos h]
    rfl
  · rw [if_neg h]
    rfl

theorem recordFieldInserts_filter_vtordisp (r : RecordInput)
    (hcxx : r.isCxxRecord = true) :
    (recordFieldInserts r).filter
      (fun f => decide (f.kind = PathogenRecordFieldKind.vTorDisp)) =
      (r.vbases.filter fun v => v.hasVtorDisp).map
        (fun v => mkNewField .vTorDisp (v.vbaseOffset - 4) "vtordisp"
          (.ofQualType v.typeId)) := by
  unfold recordFieldInserts
  rw [if_pos hcxx, if_pos hcxx]
  simp only [List.filter_append]
  have h1 : (vfptrInserts r).filter
      (fun f => decide (f.kind = PathogenRecordFieldKind.vTorDisp)) = [] :=
    filter_kind_nil fun f hf => by simp [vfptrInserts_kind r f hf]
  have h2 : (nonVirtualBaseInserts r).filter
      (fun f => decide (f.kind = PathogenRecordFieldKind.vTorDisp)) = [] :=
    filter_kind_nil fun f hf => by simp [nonVirtualBaseInserts_kind r f hf]
  have h3 : (vbptrInserts r).filter
      (fun f => decide (f.kind = PathogenRecordFieldKind.vTorDisp)) = [] :=
    filter_kind_nil fun f hf => by simp [vbptrInserts_kind r f hf]
  have h4 : (normalFieldInserts r).filter
      (fun f => decide (f.kind = PathogenRecordFieldKind.vTorDisp)) = [] :=
    filter_kind_nil fun f hf => by simp [normalFieldInserts_kind r f hf]
  rw [h1, h2, h3, h4]
  simp only [List.nil_append, List.append_nil]
  unfold vbaseInserts
  rw [List.filter_flatMap]
  rw [show (fun v => (vbaseInsertsFor r v).filter
        (fun f => decide (f.kind = PathogenRecordFieldKind.vTorDisp))) =
      (fun v => if v.hasVtorDisp = true then
        [mkNewField .vTorDisp (v.vbaseOffset - 4) "vtordisp" (.ofQualType v.typeId)]
      else []) from funext (fun v => vbaseInsertsFor_filter_vtordisp r v)]
  exact flatMap_if_singleton (fun v => v.hasVtorDisp) _ r.vbases

theorem recordFieldInserts_filter_virtualBase (r : RecordInput)
    (hcxx : r.isCxxRecord = true) :
    (recordFieldInserts r).filter
      (fun f => decide (f.kind = PathogenRecordFieldKind.virtualBase)) =
      r.vbases.map
        (fun v => { mkNewField .virtualBase v.vbaseOffset
            (if (some v.baseDeclId == r.primaryBaseId) then "primary_virtual_base"
             else "virtual_base")
            (.ofQualType v.typeId) with
          isPrimaryBase := (some v.baseDeclId == r.primaryBaseId) }) := by
  unfold recordFieldInserts
  rw [if_pos hcxx, if_pos hcxx]
  simp only [List.filter_append]
  have h1 : (vfptrInserts r).filter
      (fun f => decide (f.kind = PathogenRecordFieldKind.virtualBase)) = [] :=
    filter_kind_nil fun f hf => by simp [vfptrInserts_kind r f hf]
  have h2 : (nonVirtualBaseInserts r).filter
      (fun f => decide (f.kind = PathogenRecordFieldKind.virtualBase)) = [] :=
    filter_kind_nil fun f hf => by simp [nonVirtualBaseInserts_kind r f hf]
  have h3 : (vbptrInserts r).filter
      (fun f => decide (f.kind = PathogenRecordFieldKind.virtualBase)) = [] :=
    filter_kind_nil fun f hf => by simp [vbptrInserts_kind r f hf]
  have h4 : (normalFieldInserts r).filter
      (fun f => decide (f.kind = PathogenRecordFieldKind.virtualBase)) = [] :=
    filter_kind_nil fun f hf => by simp [normalFieldInserts_kind r f hf]
  rw [h1, h2, h3, h4]
  simp only [List.nil_append, List.append_nil]
  unfold vbaseInserts
  rw [List.filter_flatMap]
  rw [show (fun v => (vbaseInsertsFor r v).filter
        (fun f => decide (f.kind = PathogenRecordFieldKind.virtualBase))) =
      (fun v => [{ mkNewField .virtualBase v.vbaseOffset
          (if (some v.baseDeclId == r.primaryBaseId) then "primary_virtual_base"
           else "virtual_base")
          (.ofQualType v.typeId) with
        isPrimaryBase := (some v.baseDeclId == r.primaryBaseId) }])
      from funext (fun v => vbaseInsertsFor_filter_virtualBase r v)]
  exact flatMap_singleton_map _ r.vbases

/-- C6: For every virtual base of a C++ record, a VTorDisp slot is
produced exactly when the displacement map reports an adjustment, at
offset `virtualBaseOffset − 4`, and one VirtualBase slot per virtual base
is produced at the base's reported offset, flagged `isPrimaryBase` exactly
when the base is the record's primary base: the VTorDisp (resp.
VirtualBase) slots of the final layout are, as a multiset, exactly these
per-base slots. -/
theorem virtual_base_slots_c6 (cursor : CXCursorInput) (r : RecordInput)
    (layout : PathogenRecordLayout)
    (hl : pathogen_GetRecordLayout cursor = some layout)
    (hrec : cursor.decl = some (.record r))
    (hcxx : r.isCxxRecord = true) :
    (layout.fields.filter
      (fun f => decide (f.kind = PathogenRecordFieldKind.vTorDisp))).Perm
      ((r.vbases.filter fun v => v.hasVtorDisp).map fun v =>
        { kind := .vTorDisp, offset := v.vbaseOffset - 4, name := "vtordisp",
          type := .ofQualType v.typeId, fieldDeclaration := none, isBitField := false,
          bitFieldStart := 0, bitFieldWidth := 0, isPrimaryBase := false }) ∧
    (layout.fields.filter
      (fun f => decide (f.kind = PathogenRecordFieldKind.virtualBase))).Perm
      (r.vbases.map fun v =>
        { kind := .virtualBase, offset := v.vbaseOffset,
          name := if (some v.baseDeclId == r.primaryBaseId) then "primary_virtual_base"
                  else "virtual_base",
          type := .ofQualType v.typeId, fieldDeclaration := none, isBitField := false,
          bitFieldStart := 0, bitFieldWidth := 0,
          isPrimaryBase := (some v.baseDeclId == r.primaryBaseId) }) := by
  obtain ⟨r', hrec', -, rfl⟩ := pathogen_GetRecordLayout_some_inv hl
  rw [hrec] at hrec'
  injection hrec' with h
  injection h with h
  subst h
  constructor
  · have hp := (buildRecordLayout_fields_perm r).filter
      (fun f => decide (f.kind = PathogenRecordFieldKind.vTorDisp))
    rw [recordFieldInserts_filter_vtordisp r hcxx] at hp
    exact hp
  · have hp := (buildRecordLayout_fields_perm r).filter
      (fun f => decide (f.kind = PathogenRecordFieldKind.virtualBase))
    rw [recordFieldInserts_filter_virtualBase r hcxx] at hp
    exact hp

/-- Witness for C6 at a concrete Microsoft-ABI record with one
vtordisp-carrying primary virtual base and one plain virtual base. -/
theorem virtual_base_slots_c6_witness :
    ((buildRecordLayout exampleVBaseRecord).fields.filter
      (fun f => decide (f.kind = PathogenRecordFieldKind.vTorDisp))).Perm
      ((exampleVBaseRecord.vbases.filter fun v => v.hasVtorDisp).map fun v =>
        { kind := .vTorDisp, offset := v.vbaseOffset - 4, name := "vtordisp",
          type := .ofQualType v.typeId, fieldDeclaration := none, isBitField := false,
          bitFieldStart := 0, bitFieldWidth := 0, isPrimaryBase := false }) ∧
    ((buildRecordLayout exampleVBaseRecord).fields.filter
      (fun f => decide (f.kind = PathogenRecordFieldKind.virtualBase))).Perm
      (exampleVBaseRecord.vbases.map fun v =>
        { kind := .virtualBase, offset := v.vbaseOffset,
          name := if (some v.baseDeclId == exampleVBaseRecord.primaryBaseId) then
                    "primary_virtual_base"
                  else "virtual_base",
          type := .ofQualType v.typeId, fieldDeclaration := none, isBitField := false,
          bitFieldStart := 0, bitFieldWidth := 0,
          isPrimaryBase := (some v.baseDeclId == exampleVBaseRecord.primaryBaseId) }) :=
  virtual_base_slots_c6 exampleVBaseCursor exampleVBaseRecord _ rfl rfl rfl

/-! ## C9: bitfield placement -/

theorem vfptrInserts_not_bitfield (r : RecordInput) :
    ∀ f ∈ vfptrInserts r, f.isBitField = false := by
  intro f hf
  unfold vfptrInserts at hf
  split at hf
  · simp at hf; rw [hf]; rfl
  · split at hf
    · simp at hf; rw [hf]; rfl
    · simp at hf

theorem nonVirtualBaseInserts_not_bitfield (r : RecordInput) :
    ∀ f ∈ nonVirtualBaseInserts r, f.isBitField = false := by
  intro f hf
  simp only [nonVirtualBaseInserts, List.mem_map] at hf
  obtain ⟨b, -, rfl⟩ := hf
  rfl

theorem vbptrInserts_not_bitfield (r : RecordInput) :
    ∀ f ∈ vbptrInserts r, f.isBitField = false := by
  intro f hf
  unfold vbptrInserts at hf
  split at hf
  · simp at hf; rw [hf]; rfl
  · simp at hf

theorem vbaseInserts_not_bitfield (r : RecordInput) :
    ∀ f ∈ vbaseInserts r, f.isBitField = false := by
  intro f hf
  obtain ⟨v, -, hv⟩ := List.mem_flatMap.mp hf
  unfold vbaseInsertsFor at hv
  rcases List.mem_append.mp hv with h | h
  · split at h
    · simp at h; rw [h]; rfl
    · simp at h
  · simp at h; rw [h]; rfl

theorem normalFieldInserts_bitfield_bound (r : RecordInput) :
    ∀ f ∈ normalFieldInserts r, f.isBitField = true → f.bitFieldStart < 8 := by
  intro f hf hbit
  simp only [normalFieldInserts, List.mem_map] at hf
  obtain ⟨fd, -, rfl⟩ := hf
  by_cases h : fd.isBitField = true
  · rw [if_pos h]
    show fd.offsetBits - 8 * (fd.offsetBits / 8) < 8
    omega
  · rw [if_neg h] at hbit
    simp [mkNewField] at hbit

/-- C9 (amended): every bitfield slot in an extracted layout has
`bitFieldStart < 8`, i.e. the start bit stays within the slot's storage
byte (`bitFieldStart` is the sub-byte remainder of the field's bit
offset); the sum `bitFieldStart + bitFieldWidth` is NOT bounded by 8,
since the declared width may span multiple bytes. -/
theorem bitfield_start_in_byte_c9 (cursor : CXCursorInput)
    (layout : PathogenRecordLayout)
    (hl : pathogen_GetRecordLayout cursor = some layout) :
    ∀ f ∈ layout.fields, f.isBitField = true → f.bitFieldStart < 8 := by
  obtain ⟨r, -, -, rfl⟩ := pathogen_GetRecordLayout_some_inv hl
  intro f hf hbit
  have hmem : f ∈ recordFieldInserts r :=
    (buildRecordLayout_fields_perm r).mem_iff.mp hf
  unfold recordFieldInserts at hmem
  rcases List.mem_append.mp hmem with hm | hm
  · rcases List.mem_append.mp hm with hm2 | hm2
    · split at hm2
      · rcases List.mem_append.mp hm2 with h | h
        · rcases List.mem_append.mp h with h2 | h2
          · simp [vfptrInserts_not_bitfield r f h2] at hbit
          · simp [nonVirtualBaseInserts_not_bitfield r f h2] at hbit
        · simp [vbptrInserts_not_bitfield r f h] at hbit
      · simp at hm2
    · exact normalFieldInserts_bitfield_bound r f hm2 hbit
  · split at hm
    · simp [vbaseInserts_not_bitfield r f hm] at hbit
    · simp at hm

/-- Witness for C9 (amended) at the slot the extraction produces for a
concrete 20-bit bitfield. -/
theorem bitfield_start_in_byte_c9_witness :
    ({ kind := .normal, offset := 0, name := "flags", type := .ofQualType 1,
       fieldDeclaration := some 12, isBitField := true, bitFieldStart := 0,
       bitFieldWidth := 20, isPrimaryBase := false } :
        PathogenRecordField).bitFieldStart < 8 :=
  bitfield_start_in_byte_c9 exampleBitfieldCursor
    (buildRecordLayout exampleBitfieldRecord) rfl _ (by decide) rfl

/-- C9 counterexample: the extraction of a perfectly legal record with a
20-bit `int` bitfield produces a bitfield slot whose
`bitFieldStart + bitFieldWidth` (= 20) exceeds the 8-bit storage unit, so
the claimed bound `bitFieldStart + bitFieldWidth ≤ 8` is false. -/
theorem bitfield_width_exceeds_byte_c9 :
    pathogen_GetRecordLayout exampleBitfieldCursor =
      some (buildRecordLayout exampleBitfieldRecord) ∧
    ((buildRecordLayout exampleBitfieldRecord).fields.any
      (fun f => f.isBitField && decide (8 < f.bitFieldStart + f.bitFieldWidth))) = true :=
  ⟨rfl, by decide⟩

/-! ## C10: value-initialization defaults -/

theorem vfptrInserts_defaultsOK (r : RecordInput) :
    ∀ f ∈ vfptrInserts r, fieldDefaultsOK f := by
  intro f hf
  unfold vfptrInserts at hf
  split at hf
  · simp at hf
    subst hf
    exact ⟨fun _ => ⟨rfl, rfl⟩, fun hb => by simp [mkNewField] at hb,
      fun hp => by simp [mkNewField] at hp⟩
  · split at hf
    · simp at hf
      subst hf
      exact ⟨fun _ => ⟨rfl, rfl⟩, fun hb => by simp [mkNewField] at hb,
        fun hp => by simp [mkNewField] at hp⟩
    · simp at hf

theorem nonVirtualBaseInserts_defaultsOK (r : RecordInput) :
    ∀ f ∈ nonVirtualBaseInserts r, fieldDefaultsOK f := by
  intro f hf
  simp only [nonVirtualBaseInserts, List.mem_map] at hf
  obtain ⟨b, -, rfl⟩ := hf
  exact ⟨fun _ => ⟨rfl, rfl⟩, fun hb => by simp [mkNewField] at hb, fun _ => Or.inl rfl⟩

theorem vbptrInserts_defaultsOK (r : RecordInput) :
    ∀ f ∈ vbptrInserts r, fieldDefaultsOK f := by
  intro f hf
  unfold vbptrInserts at hf
  split at hf
  · simp at hf
    subst hf
    exact ⟨fun _ => ⟨rfl, rfl⟩, fun hb => by simp [mkNewField] at hb,
      fun hp => by simp [mkNewField] at hp⟩
  · simp at hf

theorem normalFieldInserts_defaultsOK (r : RecordInput) :
    ∀ f ∈ normalFieldInserts r, fieldDefaultsOK f := by
  intro f hf
  simp only [normalFieldInserts, List.mem_map] at hf
  obtain ⟨fd, -, rfl⟩ := hf
  by_cases h : fd.isBitField = true
  · rw [if_pos h]
    exact ⟨fun hb => by simp [mkNewField] at hb, fun _ => rfl,
      fun hp => by simp [mkNewField] at hp⟩
  · rw [if_neg h]
    exact ⟨fun _ => ⟨rfl, rfl⟩, fun hb => by simp [mkNewField] at hb,
      fun hp => by simp [mkNewField] at hp⟩

theorem vbaseInserts_defaultsOK (r : RecordInput) :
    ∀ f ∈ vbaseInserts r, fieldDefaultsOK f := by
  intro f hf
  obtain ⟨v, -, hv⟩ := List.mem_flatMap.mp hf
  unfold vbaseInsertsFor at hv
  rcases List.mem_append.mp hv with h | h
  · split at h
    · simp at h
      subst h
      exact ⟨fun _ => ⟨rfl, rfl⟩, fun hb => by simp [mkNewField] at hb,
        fun hp => by simp [mkNewField] at hp⟩
    · simp at h
  · simp at h
    subst h
    exact ⟨fun _ => ⟨rfl, rfl⟩, fun hb => by simp [mkNewField] at hb, fun _ => Or.inr rfl⟩

theorem recordFieldInserts_defaultsOK (r : RecordInput) :
    ∀ f ∈ recordFieldInserts r, fieldDefaultsOK f := by
  intro f hf
  unfold recordFieldInserts at hf
  rcases List.mem_append.mp hf with hm | hm
  · rcases List.mem_append.mp hm with hm2 | hm2
    · split at hm2
      · rcases List.mem_append.mp hm2 with h | h
        · rcases List.mem_append.mp h with h2 | h2
          · exact vfptrInserts_defaultsOK r f h2
          · exact nonVirtualBaseInserts_defaultsOK r f h2
        · exact vbptrInserts_defaultsOK r f h
      · simp at hm2
    · exact normalFieldInserts_defaultsOK r f hm2
  · split at hm
    · exact vbaseInserts_defaultsOK r f hm
    · simp at hm

/-- C10: Layouts and field slots are value-initialized at creation: every
slot of every extracted layout keeps its bitfield members zero unless a
bitfield assignment follows (which only happens for Normal slots) and its
`isPrimaryBase` false except on base slots; for a record that is not a
C++ record the layout keeps `isCppRecord` false, `nonVirtualSize` and
`nonVirtualAlignment` zero and no VTables; and a freshly created layout
has empty field and VTable lists. -/
theorem value_init_defaults_c10 :
    (∀ (cursor : CXCursorInput) (layout : PathogenRecordLayout),
      pathogen_GetRecordLayout cursor = some layout →
      ∀ f ∈ layout.fields,
        (f.isBitField = false → f.bitFieldStart = 0 ∧ f.bitFieldWidth = 0) ∧
        (f.isBitField = true → f.kind = PathogenRecordFieldKind.normal) ∧
        (f.isPrimaryBase = true →
          f.kind = PathogenRecordFieldKind.nonVirtualBase ∨
          f.kind = PathogenRecordFieldKind.virtualBase)) ∧
    (∀ (cursor : CXCursorInput) (r : RecordInput) (layout : PathogenRecordLayout),
      pathogen_GetRecordLayout cursor = some layout →
      cursor.decl = some (.record r) →
      r.isCxxRecord = false →
      layout.isCppRecord = false ∧ layout.nonVirtualSize = 0 ∧
      layout.nonVirtualAlignment = 0 ∧ layout.vtables = []) ∧
    (newPathogenRecordLayout.fields = [] ∧ newPathogenRecordLayout.vtables = []) := by
  refine ⟨?_, ?_, rfl, rfl⟩
  · intro cursor layout hl f hf
    obtain ⟨r, -, -, rfl⟩ := pathogen_GetRecordLayout_some_inv hl
    exact recordFieldInserts_defaultsOK r f
      ((buildRecordLayout_fields_perm r).mem_iff.mp hf)
  · intro cursor r layout hl hrec hnot
    obtain ⟨r', hrec', -, rfl⟩ := pathogen_GetRecordLayout_some_inv hl
    rw [hrec] at hrec'
    injection hrec' with h
    injection h with h
    subst h
    refine ⟨?_, ?_, ?_, ?_⟩ <;>
      simp [buildRecordLayout, newPathogenRecordLayout, recordVTables, hnot]

/-- Witness for C10: the extraction of a concrete plain C record leaves
the C++-only members at their zero values and produces no VTables. -/
theorem value_init_defaults_c10_witness :
    (buildRecordLayout examplePlainRecord).isCppRecord = false ∧
    (buildRecordLayout examplePlainRecord).nonVirtualSize = 0 ∧
    (buildRecordLayout examplePlainRecord).nonVirtualAlignment = 0 ∧
    (buildRecordLayout examplePlainRecord).vtables = [] :=
  value_init_defaults_c10.2.1 examplePlainCursor examplePlainRecord _ rfl rfl rfl

/-! ## C3: records with no virtual functions and no virtual bases -/

/-- C3 (code-bug exhibit): for a concrete C++ record with no virtual
functions and no virtual bases (not a dynamic class, no vbases, owns no
vfptr/vbptr) on an Itanium-ABI target, the extraction produces none of
the four virtual-layout slot kinds — but it does NOT produce zero
VTables: the vtable section runs for every C++ record, so one VTable is
still appended (in a real build this queries clang's
`ItaniumVTableContext::getVTableLayout` for a non-dynamic class, which
violates that API's dynamic-class precondition). -/
theorem no_virtual_slots_one_vtable_c3 :
    pathogen_GetRecordLayout exampleNonDynCxxCursor =
      some (buildRecordLayout exampleNonDynCxxRecord) ∧
    ((buildRecordLayout exampleNonDynCxxRecord).fields.filter fun f =>
      decide (f.kind = PathogenRecordFieldKind.vTablePtr) ||
      decide (f.kind = PathogenRecordFieldKind.virtualBaseTablePtr) ||
      decide (f.kind = PathogenRecordFieldKind.vTorDisp) ||
      decide (f.kind = PathogenRecordFieldKind.virtualBase)) = [] ∧
    (buildRecordLayout exampleNonDynCxxRecord).vtables.length = 1 :=
  ⟨rfl, by decide, rfl⟩
